import Mathlib

/-!
Compound toggle components: explicit injection (02.js) and context broadcast (03.js).

A shallow embedding of `src/exercises/02.js` and `src/exercises/03.js`.

The two files define the same root component `Toggle` twice.  In `02.js` the
root clones each direct child with `on` and `toggle` injected; in `03.js` it
wraps its children in a `ToggleContext.Provider`.  The slot components `On`,
`Off` and `Button` read the published value from their properties (02) or
from a `ToggleContext.Consumer` (03).

The rendering runtime (React) is an external collaborator.  The pieces of it
that the two files call (`cloneElement`, `Children.map`, context resolution,
expansion of a tree description) are modelled in the `React` section below;
the component functions themselves are transcribed from the source.

Conventions of the embedding:

* a JavaScript function value is a term of `Fn`; calling it is `Fn.invoke`,
  which acts on a `World` holding the root state and a log of the calls made
  to caller-supplied functions;
* a property bag is an association list read front to back, so that
  `Object.assign({}, a, b)` is `b ++ a`;
* `props.children` is kept as a separate field of an element; `Node.null`
  stands for both `null` and `undefined` content;
* element keys are not modelled (they are not properties).
-/

namespace Compound

/-! ## Values -/

/-- The function values that occur in the two files. -/
inductive Fn where
  /-- The arrow function `() => {}` of the context default (03.js line 32). -/
  | noop
  /-- The closure `() => setOn(b)`, where `b` is the value of `!isOn` in the
  render that created it (02.js line 42, 03.js line 80). -/
  | setOn (b : Bool)
  /-- A function supplied by the caller, identified by a number. -/
  | ext (id : Nat)
deriving DecidableEq, Repr

/-- JavaScript values carried by properties. -/
inductive Val where
  | undefined
  | null
  | bool (b : Bool)
  | num (n : Int)
  | str (s : String)
  | fn (f : Fn)
deriving DecidableEq, Repr

/-- JavaScript truthiness, as used by the conditional operator. -/
def Val.truthy : Val → Bool
  | .undefined => false
  | .null => false
  | .bool b => b
  | .num n => n != 0
  | .str s => s != ""
  | .fn _ => true

/-- A property bag. The first entry for a name is the one that counts. -/
abbrev Props := List (String × Val)

/-- Reading `props.name`: `undefined` when the name is absent. -/
def getProp (props : Props) (name : String) : Val :=
  (props.lookup name).getD .undefined

/-- The object `Object.assign({}, base, over)`: entries of `over` win. -/
def mergeProps (base over : Props) : Props :=
  over ++ base

/-! ## State and calls -/

/-- The mutable world: the root state cell created by `useState(false)` and the
log of calls made to caller-supplied functions, oldest first. -/
structure World where
  isOn : Bool
  calls : List (Nat × List Val)
deriving DecidableEq, Repr

/-- The world of a freshly created root: `useState(false)`. -/
def World.initial : World :=
  { isOn := false, calls := [] }

/-- Calling a function value with arguments. -/
def Fn.invoke (f : Fn) (args : List Val) (w : World) : World :=
  match f with
  | .noop => w
  | .setOn b => { w with isOn := b }
  | .ext id => { w with calls := w.calls ++ [(id, args)] }

/-- Calling a value: a `TypeError` unless the value is a function. -/
def Val.call (v : Val) (args : List Val) (w : World) : Except String World :=
  match v with
  | .fn f => .ok (f.invoke args w)
  | _ => .error "TypeError: not a function"

/-- The arguments of the calls made to the caller-supplied function `id`. -/
def World.callsTo (w : World) (id : Nat) : List (List Val) :=
  (w.calls.filter (fun c => c.1 == id)).map (fun c => c.2)

/-! ## Tree descriptions -/

/-- The three slot components. -/
inductive Comp where
  | On
  | Off
  | Button
deriving DecidableEq, Repr

/-- The type of an element. -/
inductive ElemType where
  /-- A host element such as `div`. -/
  | host (tag : String)
  /-- One of the slot components. -/
  | comp (c : Comp)
  /-- The leaf control imported from `../switch`. -/
  | Switch
  /-- The value `undefined` used as an element type. -/
  | undefined
deriving DecidableEq, Repr

/-- A tree description. -/
inductive Node where
  /-- No content: `null` or `undefined`. -/
  | null
  /-- A text node. -/
  | text (s : String)
  /-- An element: its type, its properties and `props.children`. -/
  | element (type : ElemType) (props : Props) (children : Node)
  /-- An array of children. -/
  | arr (items : List Node)
deriving Repr

/-- Whether a node is an element. -/
def Node.isElement : Node → Bool
  | .element _ _ _ => true
  | _ => false

/-- Whether a node is a text node. -/
def Node.isText : Node → Bool
  | .text _ => true
  | _ => false

/-- A plain container around one child: `<div>child</div>`. -/
def container (child : Node) : Node :=
  .element (.host "div") [] child

/-- A node wrapped in `k` nested plain containers. -/
def nest : Nat → Node → Node
  | 0, n => n
  | k + 1, n => container (nest k n)

/-- The static properties `On`, `Off` and `Button` of the function object
`Toggle`; `none` is `undefined`. -/
structure Statics where
  On : Option Comp
  Off : Option Comp
  Button : Option Comp
deriving DecidableEq, Repr

/-- The function object `Toggle` right after the module is evaluated. Neither
file assigns a static property at module level: the only top-level statements
after the definitions are `Usage.title = ...` and the export. -/
def Statics.moduleLoad : Statics :=
  { On := none, Off := none, Button := none }

/-- The element type obtained by reading a static property. -/
def ElemType.ofStatic : Option Comp → ElemType
  | some c => .comp c
  | none => .undefined

/-- The properties a root is rendered with: `{children, onToggle}`. -/
structure ToggleProps where
  children : Node
  onToggle : Val

/-- The static properties once a root has been called: what lines 35 to 37 of
02.js and lines 64 to 66 of 03.js leave on the function object. -/
def Statics.assigned : Statics :=
  { On := some .On, Off := some .Off, Button := some .Button }

mutual
/-- The properties of the leaf controls of an expanded tree, in document order. -/
def Node.switches : Node → List Props
  | .null => []
  | .text _ => []
  | .element .Switch props _ => [props]
  | .element (.host _) _ children => Node.switches children
  | .element (.comp _) _ children => Node.switches children
  | .element .undefined _ children => Node.switches children
  | .arr items => Node.switchesAll items
/-- The function `Node.switches` over the items of an array. -/
def Node.switchesAll : List Node → List Props
  | [] => []
  | n :: ns => Node.switches n ++ Node.switchesAll ns
end

/-- Activating the first leaf control of an expanded tree: its `onClick` is
called with no argument. -/
def click (tree : Node) (w : World) : Except String World :=
  match tree.switches with
  | props :: _ => (getProp props "onClick").call [] w
  | [] => .error "no leaf control to activate"

/-! ## The runtime: cloning and child iteration -/

namespace React

/-- The property names `cloneElement` never copies from its config. -/
def reservedProps : List String :=
  ["key", "ref", "__self", "__source"]

/-- The function `React.cloneElement(element, config)` with no children argument.
A `null` or `undefined` argument throws. Any other argument is read through
`element.type` and `element.props`: for an element these are its own, for a
string or an array both are `undefined`, so the clone has an undefined type and
only the config as properties. -/
def cloneElement (element : Node) (config : Props) : Except String Node :=
  let extra := config.filter (fun kv => !reservedProps.contains kv.1)
  match element with
  | .null =>
      .error "React.cloneElement(...): The argument must be a React element, but you passed null."
  | .element type props children => .ok (.element type (mergeProps props extra) children)
  | .text _ => .ok (.element .undefined extra .null)
  | .arr _ => .ok (.element .undefined extra .null)

mutual
/-- What a mapped child contributes to the result array of `Children.map`:
nothing for `null`, itself for a text or an element, its flattened items for an
array. -/
def Children.collect : Node → List Node
  | .null => []
  | .text s => [.text s]
  | .element t p c => [.element t p c]
  | .arr items => Children.collectAll items
/-- The function `Children.collect` over the items of an array. -/
def Children.collectAll : List Node → List Node
  | [] => []
  | n :: ns => Children.collect n ++ Children.collectAll ns
end

mutual
/-- The traversal behind `Children.map`: the callback is invoked on every leaf
(`null`, text or element), arrays are traversed in order. -/
def Children.mapIntoArray (callback : Node → Except String Node) :
    Node → Except String (List Node)
  | .null => do
      let mapped ← callback .null
      pure (Children.collect mapped)
  | .text s => do
      let mapped ← callback (.text s)
      pure (Children.collect mapped)
  | .element t p c => do
      let mapped ← callback (.element t p c)
      pure (Children.collect mapped)
  | .arr items => Children.mapItems callback items
/-- The traversal of `Children.mapIntoArray` over the items of an array. -/
def Children.mapItems (callback : Node → Except String Node) :
    List Node → Except String (List Node)
  | [] => pure []
  | n :: ns => do
      let first ← Children.mapIntoArray callback n
      let others ← Children.mapItems callback ns
      pure (first ++ others)
end

/-- The function `React.Children.map(children, callback)`: `null` children are
returned as they are, anything else yields the array of mapped children. -/
def Children.map (children : Node) (callback : Node → Except String Node) :
    Except String Node :=
  match children with
  | .null => pure .null
  | c => do
      let out ← Children.mapIntoArray callback c
      pure (.arr out)

end React

/-! ## Exercise 02: explicit injection -/

namespace Ex02

/-- The slot component `On` (02.js line 31):
`(props) => (props.on ? props.children : null)`. -/
def On (props : Props) (children : Node) : Node :=
  if (getProp props "on").truthy then children else .null

/-- The slot component `Off` (02.js line 32):
`(props) => (!props.on ? props.children : null)`. -/
def Off (props : Props) (children : Node) : Node :=
  if !(getProp props "on").truthy then children else .null

/-- The slot component `Button` (02.js line 33):
`({on, toggle}) => <Switch on={on} onClick={toggle} />`. Only `on` and `toggle`
are read from the properties; the element it returns has no children. -/
def Button (props : Props) (_children : Node) : Node :=
  .element .Switch [("on", getProp props "on"), ("onClick", getProp props "toggle")] .null

/-- The object literal `{on: isOn, toggle: () => setOn(!isOn)}` given to
`cloneElement` (02.js lines 40 to 43): the published value of a render. -/
def publishedValue (isOn : Bool) : Props :=
  [("on", .bool isOn), ("toggle", .fn (.setOn (!isOn)))]

/-- The root component `Toggle` (02.js lines 6 to 45), as one call of the
function with the state cell holding `isOn`. It assigns the three static
properties of the function object (lines 35 to 37) and returns the mapped
children (lines 39 to 44). `props.onToggle` is not read. -/
def Toggle (_self : Statics) (isOn : Bool) (props : ToggleProps) :
    Statics × Except String Node :=
  (Statics.assigned,
   React.Children.map props.children
     (fun childElement => React.cloneElement childElement (publishedValue isOn)))

/-- The component `Usage` (02.js lines 50 to 60): the properties of the root
element it returns. The element types are read from the static properties of
`Toggle` while the children are built, before the root renders. -/
def Usage (self : Statics) (onToggle : Val) : ToggleProps :=
  { onToggle := onToggle
    children := .arr
      [ .element (.ofStatic self.On) [] (.text "The button is on"),
        .element (.ofStatic self.Off) [] (.text "The button is off"),
        .element (.ofStatic self.Button) [] .null ] }

mutual
/-- Expansion of a tree description by the runtime: slot components are
called with their properties, containers keep their shape, the leaf control is
left as it is (also when it is what `Button` returns), and an element of
undefined type is an error. -/
def render : Node → Except String Node
  | .null => pure .null
  | .text s => pure (.text s)
  | .arr items => do
      let out ← renderAll items
      pure (.arr out)
  | .element (.host tag) props children => do
      let out ← render children
      pure (.element (.host tag) props out)
  | .element .Switch props children => pure (.element .Switch props children)
  | .element .undefined _ _ => .error "Element type is invalid: got undefined"
  | .element (.comp .On) props children => render (On props children)
  | .element (.comp .Off) props children => render (Off props children)
  | .element (.comp .Button) props children => pure (Button props children)
termination_by n => sizeOf n
decreasing_by
  all_goals simp_wf
  all_goals first
    | omega
    | (unfold On; split <;> first | (simp; omega) | simp)
    | (unfold Off; split <;> first | (simp; omega) | simp)
/-- The function `render` over the items of an array. -/
def renderAll : List Node → Except String (List Node)
  | [] => pure []
  | n :: ns => do
      let first ← render n
      let others ← renderAll ns
      pure (first :: others)
termination_by ns => sizeOf ns
decreasing_by
  all_goals simp_wf
  all_goals omega
end

/-- One render pass of a root holding `isOn`: the root is called, then its
output is expanded. -/
def renderRoot (self : Statics) (isOn : Bool) (props : ToggleProps) : Except String Node :=
  (Toggle self isOn props).2 >>= render

/-- The mutator a root hands out in one render: the `toggle` property of the
first element of its output, `undefined` when there is none. -/
def publishedToggle (output : Except String Node) : Val :=
  match output with
  | .ok (.arr (.element _ props _ :: _)) => getProp props "toggle"
  | _ => .undefined

/-- One toggle of a root: the mutator handed out by the render of the current
state is called. -/
def toggleOnce (self : Statics) (props : ToggleProps) (w : World) : Except String World :=
  (publishedToggle (Toggle self w.isOn props).2).call [] w

/-- After `n` toggles, each mutator taken from the render that follows the
previous call. -/
def toggles (self : Statics) (props : ToggleProps) : Nat → World → Except String World
  | 0, w => pure w
  | n + 1, w => do
      let w' ← toggles self props n w
      toggleOnce self props w'

/-- One activation of the leaf control of a rendered root. -/
def clickOnce (self : Statics) (props : ToggleProps) (w : World) : Except String World := do
  let tree ← renderRoot self w.isOn props
  click tree w

/-- After `n` activations of the leaf control, with a render pass before each. -/
def clicks (self : Statics) (props : ToggleProps) : Nat → World → Except String World
  | 0, w => pure w
  | n + 1, w => do
      let w' ← clicks self props n w
      clickOnce self props w'

end Ex02

/-! ## Exercise 03: context broadcast -/

namespace Ex03

/-- The value carried by the context: `{on, toggle}` (the field `on` is
written `on_`). -/
structure Published where
  on_ : Bool
  toggle : Fn
deriving DecidableEq, Repr

/-- The default value given to `createContext` (03.js lines 30 to 33):
`{on: false, toggle: () => {}}`. -/
def ToggleContext.defaultValue : Published :=
  { on_ := false, toggle := .noop }

/-- The value a consumer resolves to: the one of the nearest enclosing provider
(the head of the stack of providers met on the way down), or the default of the
context when there is none. -/
def ToggleContext.read (providers : List Published) : Published :=
  providers.headD ToggleContext.defaultValue

/-- The element `<ToggleContext.Consumer>{renderFn}</ToggleContext.Consumer>`
resolved at a position below the given providers. -/
def ToggleContext.Consumer (providers : List Published) (renderFn : Published → Node) : Node :=
  renderFn (ToggleContext.read providers)

/-- The slot component `On` (03.js lines 41 to 45): the function it gives to
the consumer, `(contextValue) => (contextValue.on ? children : null)`. -/
def On (_props : Props) (children : Node) : Published → Node :=
  fun contextValue => if contextValue.on_ then children else .null

/-- The slot component `Off` (03.js lines 46 to 50): the function it gives to
the consumer, `(contextValue) => (contextValue.on ? null : children)`. -/
def Off (_props : Props) (children : Node) : Published → Node :=
  fun contextValue => if contextValue.on_ then .null else children

/-- The slot component `Button` (03.js lines 52 to 62): the function it gives
to the consumer,
`(contextValue) => <Switch on={contextValue.on} onClick={contextValue.toggle} {...props} />`.
The spread comes last, so the properties of the caller win, and it carries the
children of the caller as well. -/
def Button (props : Props) (children : Node) : Published → Node :=
  fun contextValue =>
    .element .Switch
      (mergeProps [("on", .bool contextValue.on_), ("onClick", .fn contextValue.toggle)] props)
      children

/-- The object literal `{on: isOn, toggle: () => setOn(!isOn)}` given to the
provider (03.js line 80): the published value of a render. -/
def publishedValue (isOn : Bool) : Published :=
  { on_ := isOn, toggle := .setOn (!isOn) }

/-- The element `<ToggleContext.Provider value={value}>{children}</...>`. -/
structure ProviderElement where
  value : Published
  children : Node

/-- The root component `Toggle` (03.js lines 35 to 85), as one call of the
function with the state cell holding `isOn`. It assigns the three static
properties of the function object (lines 64 to 66) and returns the provider
element around its children (lines 78 to 84). `props.onToggle` is not read. -/
def Toggle (_self : Statics) (isOn : Bool) (props : ToggleProps) :
    Statics × ProviderElement :=
  (Statics.assigned,
   { value := publishedValue isOn, children := props.children })

/-- The component `Usage` (03.js lines 90 to 102): the properties of the root
element it returns. The element types are read from the static properties of
`Toggle` while the children are built, before the root renders. -/
def Usage (self : Statics) (onToggle : Val) : ToggleProps :=
  { onToggle := onToggle
    children := .arr
      [ .element (.ofStatic self.On) [] (.text "The button is on"),
        .element (.ofStatic self.Off) [] (.text "The button is off"),
        container (.element (.ofStatic self.Button) [] .null) ] }

mutual
/-- Expansion of a tree description by the runtime below the given providers:
slot components resolve their consumer, containers keep their shape, the leaf
control is left as it is (also when it is what `Button` returns), and an
element of undefined type is an error. -/
def render (providers : List Published) : Node → Except String Node
  | .null => pure .null
  | .text s => pure (.text s)
  | .arr items => do
      let out ← renderAll providers items
      pure (.arr out)
  | .element (.host tag) props children => do
      let out ← render providers children
      pure (.element (.host tag) props out)
  | .element .Switch props children => pure (.element .Switch props children)
  | .element .undefined _ _ => .error "Element type is invalid: got undefined"
  | .element (.comp .On) props children =>
      render providers (ToggleContext.Consumer providers (On props children))
  | .element (.comp .Off) props children =>
      render providers (ToggleContext.Consumer providers (Off props children))
  | .element (.comp .Button) props children =>
      pure (ToggleContext.Consumer providers (Button props children))
termination_by n => sizeOf n
decreasing_by
  all_goals simp_wf
  all_goals first
    | omega
    | (unfold ToggleContext.Consumer On; split <;> first | (simp; omega) | simp)
    | (unfold ToggleContext.Consumer Off; split <;> first | (simp; omega) | simp)
/-- The function `render` over the items of an array. -/
def renderAll (providers : List Published) : List Node → Except String (List Node)
  | [] => pure []
  | n :: ns => do
      let first ← render providers n
      let others ← renderAll providers ns
      pure (first :: others)
termination_by ns => sizeOf ns
decreasing_by
  all_goals simp_wf
  all_goals omega
end

/-- Expansion of a provider element: its children are expanded with its value
pushed on the providers. -/
def renderProvider (providers : List Published) (p : ProviderElement) : Except String Node :=
  render (p.value :: providers) p.children

/-- One render pass of a root holding `isOn`, with no provider above it: the
root is called, then the provider element it returns is expanded. -/
def renderRoot (self : Statics) (isOn : Bool) (props : ToggleProps) : Except String Node :=
  renderProvider [] (Toggle self isOn props).2

/-- One toggle of a root: the mutator published by the render of the current
state is called. -/
def toggleOnce (self : Statics) (props : ToggleProps) (w : World) : World :=
  (Toggle self w.isOn props).2.value.toggle.invoke [] w

/-- After `n` toggles, each mutator taken from the render that follows the
previous call. -/
def toggles (self : Statics) (props : ToggleProps) : Nat → World → World
  | 0, w => w
  | n + 1, w => toggleOnce self props (toggles self props n w)

/-- One activation of the leaf control of a rendered root. -/
def clickOnce (self : Statics) (props : ToggleProps) (w : World) : Except String World := do
  let tree ← renderRoot self w.isOn props
  click tree w

/-- After `n` activations of the leaf control, with a render pass before each. -/
def clicks (self : Statics) (props : ToggleProps) : Nat → World → Except String World
  | 0, w => pure w
  | n + 1, w => do
      let w' ← clicks self props n w
      clickOnce self props w'

end Ex03

/-! ## Lemmas on the embedding -/

theorem getProp_mergeProps (base over : Props) (name : String) :
    getProp (mergeProps base over) name =
      match over.lookup name with
      | some v => v
      | none => getProp base name := by
  unfold getProp mergeProps
  rw [List.lookup_append]
  cases over.lookup name <;> simp

theorem publishedValue_filter (isOn : Bool) :
    (Ex02.publishedValue isOn).filter (fun kv => !React.reservedProps.contains kv.1)
      = Ex02.publishedValue isOn := by
  cases isOn <;> rfl

theorem forall₂_getElem? {α β : Type} {R : α → β → Prop} {l₁ : List α} {l₂ : List β}
    (h : List.Forall₂ R l₁ l₂) (i : Nat) (a : α) (ha : l₁[i]? = some a) :
    ∃ b, l₂[i]? = some b ∧ R a b := by
  induction h generalizing i with
  | nil => simp at ha
  | cons hab _ ih =>
    cases i with
    | zero =>
      simp at ha
      subst ha
      exact ⟨_, by simp, hab⟩
    | succ j =>
      simp at ha
      obtain ⟨b, hb, hr⟩ := ih j ha
      exact ⟨b, by simpa using hb, hr⟩

/-- On a list of text and element children, the traversal of `Children.map`
with the cloning callback succeeds and pairs every child with its clone. -/
theorem mapItems_leaves (config : Props) (cs : List Node)
    (h : ∀ c ∈ cs, c.isElement = true ∨ c.isText = true) :
    ∃ out, React.Children.mapItems (fun c => React.cloneElement c config) cs = .ok out ∧
      List.Forall₂ (fun c o => React.cloneElement c config = .ok o ∧ o.isElement = true) cs out := by
  induction cs with
  | nil => exact ⟨[], rfl, List.Forall₂.nil⟩
  | cons c cs ih =>
    obtain ⟨out, hout, hrel⟩ := ih (fun d hd => h d (List.mem_cons_of_mem _ hd))
    have hc := h c (List.mem_cons_self _ _)
    cases c with
    | null => simp [Node.isElement, Node.isText] at hc
    | arr items => simp [Node.isElement, Node.isText] at hc
    | text s =>
      refine ⟨_ :: out, ?_, List.Forall₂.cons ⟨rfl, rfl⟩ hrel⟩
      simp only [React.Children.mapItems, React.Children.mapIntoArray, hout]
      rfl
    | element t p ch =>
      refine ⟨_ :: out, ?_, List.Forall₂.cons ⟨rfl, rfl⟩ hrel⟩
      simp only [React.Children.mapItems, React.Children.mapIntoArray, hout]
      rfl

/-- The output of the root of 02.js on an array of text and element children. -/
theorem Toggle02_on_leaves (self : Statics) (isOn : Bool) (cs : List Node) (onToggle : Val)
    (h : ∀ c ∈ cs, c.isElement = true ∨ c.isText = true) :
    ∃ out, (Ex02.Toggle self isOn { children := .arr cs, onToggle := onToggle }).2
        = .ok (.arr out) ∧
      List.Forall₂ (fun c o => React.cloneElement c (Ex02.publishedValue isOn) = .ok o
        ∧ o.isElement = true) cs out := by
  obtain ⟨out, hout, hrel⟩ := mapItems_leaves (Ex02.publishedValue isOn) cs h
  refine ⟨out, ?_, hrel⟩
  simp only [Ex02.Toggle, React.Children.map, React.Children.mapIntoArray, hout]
  rfl

/-- On a nonempty array of element children, the mutator handed out by the
root of 02.js is the closure `() => setOn(!isOn)` of that render. -/
theorem publishedToggle_Toggle02 (self : Statics) (isOn : Bool) (c : Node) (cs : List Node)
    (onToggle : Val) (h : ∀ d ∈ c :: cs, d.isElement = true) :
    Ex02.publishedToggle
        (Ex02.Toggle self isOn { children := .arr (c :: cs), onToggle := onToggle }).2
      = .fn (.setOn (!isOn)) := by
  obtain ⟨out, hout, hrel⟩ :=
    Toggle02_on_leaves self isOn (c :: cs) onToggle (fun d hd => Or.inl (h d hd))
  rw [hout]
  cases hrel with
  | cons hhead _ =>
    have hc := h c (List.mem_cons_self _ _)
    cases c with
    | null => simp [Node.isElement] at hc
    | text s => simp [Node.isElement] at hc
    | arr items => simp [Node.isElement] at hc
    | element t p ch =>
      obtain ⟨hclone, _⟩ := hhead
      simp only [React.cloneElement, publishedValue_filter] at hclone
      injection hclone with hclone
      subst hclone
      simp [Ex02.publishedToggle, getProp_mergeProps, Ex02.publishedValue, List.lookup]

/-- One toggle of the root of 02.js flips the state and leaves the call log. -/
theorem toggleOnce02 (self : Statics) (c : Node) (cs : List Node) (onToggle : Val)
    (h : ∀ d ∈ c :: cs, d.isElement = true) (w : World) :
    Ex02.toggleOnce self { children := .arr (c :: cs), onToggle := onToggle } w
      = .ok { w with isOn := !w.isOn } := by
  unfold Ex02.toggleOnce
  rw [publishedToggle_Toggle02 self w.isOn c cs onToggle h]
  rfl

/-- The world reached by the root of 02.js after `n` toggles. -/
theorem toggles02 (self : Statics) (c : Node) (cs : List Node) (onToggle : Val)
    (h : ∀ d ∈ c :: cs, d.isElement = true) (n : Nat) :
    Ex02.toggles self { children := .arr (c :: cs), onToggle := onToggle } n World.initial
      = .ok { isOn := decide (n % 2 = 1), calls := [] } := by
  induction n with
  | zero => rfl
  | succ n ih =>
    simp only [Ex02.toggles, ih, bind, Except.bind, toggleOnce02 self c cs onToggle h]
    congr 2
    rcases Nat.mod_two_eq_zero_or_one n with h0 | h1
    · have : (n + 1) % 2 = 1 := by omega
      simp [h0, this]
    · have : (n + 1) % 2 = 0 := by omega
      simp [h1, this]

/-- The world reached by the root of 03.js after `n` toggles. -/
theorem toggles03 (self : Statics) (props : ToggleProps) (n : Nat) :
    Ex03.toggles self props n World.initial
      = { isOn := decide (n % 2 = 1), calls := [] } := by
  induction n with
  | zero => rfl
  | succ n ih =>
    simp only [Ex03.toggles, ih, Ex03.toggleOnce, Ex03.Toggle, Ex03.publishedValue, Fn.invoke]
    congr 1
    rcases Nat.mod_two_eq_zero_or_one n with h0 | h1
    · have : (n + 1) % 2 = 1 := by omega
      simp [h0, this]
    · have : (n + 1) % 2 = 0 := by omega
      simp [h1, this]

theorem ok_bind {α β : Type} (x : α) (f : α → Except String β) :
    (Except.ok x >>= f) = f x :=
  rfl

/-! ### Unfolding the expansion of 02.js -/

theorem render02_null : Ex02.render .null = .ok .null := by
  rw [Ex02.render]
  rfl

theorem render02_text (s : String) : Ex02.render (.text s) = .ok (.text s) := by
  rw [Ex02.render]
  rfl

theorem render02_arr (items : List Node) :
    Ex02.render (.arr items) = (do let out ← Ex02.renderAll items; pure (.arr out)) := by
  rw [Ex02.render]

theorem render02_host (tag : String) (props : Props) (children : Node) :
    Ex02.render (.element (.host tag) props children)
      = (do let out ← Ex02.render children; pure (.element (.host tag) props out)) := by
  rw [Ex02.render]

theorem render02_On (props : Props) (children : Node) :
    Ex02.render (.element (.comp .On) props children)
      = Ex02.render (Ex02.On props children) := by
  rw [Ex02.render]

theorem render02_Off (props : Props) (children : Node) :
    Ex02.render (.element (.comp .Off) props children)
      = Ex02.render (Ex02.Off props children) := by
  rw [Ex02.render]

theorem render02_Button (props : Props) (children : Node) :
    Ex02.render (.element (.comp .Button) props children)
      = .ok (Ex02.Button props children) := by
  rw [Ex02.render]
  rfl

theorem render02_undefined (props : Props) (children : Node) :
    Ex02.render (.element .undefined props children)
      = .error "Element type is invalid: got undefined" := by
  rw [Ex02.render]

theorem renderAll02_nil : Ex02.renderAll [] = .ok [] := by
  rw [Ex02.renderAll]
  rfl

theorem renderAll02_cons (n : Node) (ns : List Node) :
    Ex02.renderAll (n :: ns) = (do
      let first ← Ex02.render n
      let others ← Ex02.renderAll ns
      pure (first :: others)) := by
  rw [Ex02.renderAll]

/-! ### Unfolding the expansion of 03.js -/

theorem render03_null (ps : List Ex03.Published) : Ex03.render ps .null = .ok .null := by
  rw [Ex03.render]
  rfl

theorem render03_text (ps : List Ex03.Published) (s : String) :
    Ex03.render ps (.text s) = .ok (.text s) := by
  rw [Ex03.render]
  rfl

theorem render03_arr (ps : List Ex03.Published) (items : List Node) :
    Ex03.render ps (.arr items)
      = (do let out ← Ex03.renderAll ps items; pure (.arr out)) := by
  rw [Ex03.render]

theorem render03_host (ps : List Ex03.Published) (tag : String) (props : Props)
    (children : Node) :
    Ex03.render ps (.element (.host tag) props children)
      = (do let out ← Ex03.render ps children; pure (.element (.host tag) props out)) := by
  rw [Ex03.render]

theorem render03_On (ps : List Ex03.Published) (props : Props) (children : Node) :
    Ex03.render ps (.element (.comp .On) props children)
      = Ex03.render ps (Ex03.ToggleContext.Consumer ps (Ex03.On props children)) := by
  rw [Ex03.render]

theorem render03_Off (ps : List Ex03.Published) (props : Props) (children : Node) :
    Ex03.render ps (.element (.comp .Off) props children)
      = Ex03.render ps (Ex03.ToggleContext.Consumer ps (Ex03.Off props children)) := by
  rw [Ex03.render]

theorem render03_Button (ps : List Ex03.Published) (props : Props) (children : Node) :
    Ex03.render ps (.element (.comp .Button) props children)
      = .ok (Ex03.ToggleContext.Consumer ps (Ex03.Button props children)) := by
  rw [Ex03.render]
  rfl

theorem render03_undefined (ps : List Ex03.Published) (props : Props) (children : Node) :
    Ex03.render ps (.element .undefined props children)
      = .error "Element type is invalid: got undefined" := by
  rw [Ex03.render]

theorem renderAll03_nil (ps : List Ex03.Published) : Ex03.renderAll ps [] = .ok [] := by
  rw [Ex03.renderAll]
  rfl

theorem renderAll03_cons (ps : List Ex03.Published) (n : Node) (ns : List Node) :
    Ex03.renderAll ps (n :: ns) = (do
      let first ← Ex03.render ps n
      let others ← Ex03.renderAll ps ns
      pure (first :: others)) := by
  rw [Ex03.renderAll]

/-! ### The component `Usage` once the static properties are assigned -/

theorem On02_publishedValue (b : Bool) (c : Node) :
    Ex02.On (Ex02.publishedValue b) c = if b then c else .null := by
  cases b <;> rfl

theorem Off02_publishedValue (b : Bool) (c : Node) :
    Ex02.Off (Ex02.publishedValue b) c = if b then .null else c := by
  cases b <;> rfl

theorem Toggle02_Usage (b : Bool) (onToggle : Val) :
    (Ex02.Toggle Statics.assigned b (Ex02.Usage Statics.assigned onToggle)).2
      = .ok (.arr
        [ .element (.comp .On) (Ex02.publishedValue b) (.text "The button is on"),
          .element (.comp .Off) (Ex02.publishedValue b) (.text "The button is off"),
          .element (.comp .Button) (Ex02.publishedValue b) .null ]) := by
  cases b <;> rfl

theorem render02_Usage_output (b : Bool) :
    Ex02.render (.arr
        [ .element (.comp .On) (Ex02.publishedValue b) (.text "The button is on"),
          .element (.comp .Off) (Ex02.publishedValue b) (.text "The button is off"),
          .element (.comp .Button) (Ex02.publishedValue b) .null ])
      = .ok (.arr
        [ if b then .text "The button is on" else .null,
          if b then .null else .text "The button is off",
          .element .Switch [("on", .bool b), ("onClick", .fn (.setOn (!b)))] .null ]) := by
  rw [render02_arr, renderAll02_cons, renderAll02_cons, renderAll02_cons, renderAll02_nil,
    render02_On, render02_Off, render02_Button, On02_publishedValue, Off02_publishedValue]
  cases b
  · simp only [Bool.false_eq_true, if_false]
    rw [render02_null, render02_text]
    rfl
  · simp only [if_true]
    rw [render02_null, render02_text]
    rfl

theorem renderRoot02_Usage (b : Bool) (onToggle : Val) :
    Ex02.renderRoot Statics.assigned b (Ex02.Usage Statics.assigned onToggle)
      = .ok (.arr
        [ if b then .text "The button is on" else .null,
          if b then .null else .text "The button is off",
          .element .Switch [("on", .bool b), ("onClick", .fn (.setOn (!b)))] .null ]) := by
  unfold Ex02.renderRoot
  rw [Toggle02_Usage, ok_bind]
  exact render02_Usage_output b

theorem clickOnce02_Usage (onToggle : Val) (w : World) :
    Ex02.clickOnce Statics.assigned (Ex02.Usage Statics.assigned onToggle) w
      = .ok { w with isOn := !w.isOn } := by
  unfold Ex02.clickOnce
  rw [renderRoot02_Usage]
  obtain ⟨b, calls⟩ := w
  cases b <;> rfl

theorem Consumer03_On (v : Ex03.Published) (rest : List Ex03.Published) (p : Props)
    (c : Node) :
    Ex03.ToggleContext.Consumer (v :: rest) (Ex03.On p c) = if v.on_ then c else .null :=
  rfl

theorem Consumer03_Off (v : Ex03.Published) (rest : List Ex03.Published) (p : Props)
    (c : Node) :
    Ex03.ToggleContext.Consumer (v :: rest) (Ex03.Off p c) = if v.on_ then .null else c :=
  rfl

theorem Toggle03_Usage (b : Bool) (onToggle : Val) :
    (Ex03.Toggle Statics.assigned b (Ex03.Usage Statics.assigned onToggle)).2
      = { value := Ex03.publishedValue b,
          children := .arr
            [ .element (.comp .On) [] (.text "The button is on"),
              .element (.comp .Off) [] (.text "The button is off"),
              .element (.host "div") [] (.element (.comp .Button) [] .null) ] } :=
  rfl

theorem renderRoot03_Usage (b : Bool) (onToggle : Val) :
    Ex03.renderRoot Statics.assigned b (Ex03.Usage Statics.assigned onToggle)
      = .ok (.arr
        [ if b then .text "The button is on" else .null,
          if b then .null else .text "The button is off",
          container
            (.element .Switch [("on", .bool b), ("onClick", .fn (.setOn (!b)))] .null) ]) := by
  unfold Ex03.renderRoot Ex03.renderProvider
  rw [Toggle03_Usage, render03_arr, renderAll03_cons, renderAll03_cons, renderAll03_cons,
    renderAll03_nil, render03_On, render03_Off, render03_host, render03_Button, Consumer03_On,
    Consumer03_Off]
  cases b
  · simp only [Ex03.publishedValue, Bool.false_eq_true, if_false]
    rw [render03_null, render03_text]
    rfl
  · simp only [Ex03.publishedValue, if_true]
    rw [render03_null, render03_text]
    rfl

theorem clickOnce03_Usage (onToggle : Val) (w : World) :
    Ex03.clickOnce Statics.assigned (Ex03.Usage Statics.assigned onToggle) w
      = .ok { w with isOn := !w.isOn } := by
  unfold Ex03.clickOnce
  rw [renderRoot03_Usage]
  obtain ⟨b, calls⟩ := w
  cases b <;> rfl

theorem decide_succ_mod_two (n : Nat) :
    (!decide (n % 2 = 1)) = decide ((n + 1) % 2 = 1) := by
  rcases Nat.mod_two_eq_zero_or_one n with h0 | h1
  · have : (n + 1) % 2 = 1 := by omega
    simp [h0, this]
  · have : (n + 1) % 2 = 0 := by omega
    simp [h1, this]

theorem clicks02_Usage (onToggle : Val) (n : Nat) :
    Ex02.clicks Statics.assigned (Ex02.Usage Statics.assigned onToggle) n World.initial
      = .ok { isOn := decide (n % 2 = 1), calls := [] } := by
  induction n with
  | zero => rfl
  | succ n ih =>
    simp only [Ex02.clicks, ih, bind, Except.bind, clickOnce02_Usage, decide_succ_mod_two]

theorem clicks03_Usage (onToggle : Val) (n : Nat) :
    Ex03.clicks Statics.assigned (Ex03.Usage Statics.assigned onToggle) n World.initial
      = .ok { isOn := decide (n % 2 = 1), calls := [] } := by
  induction n with
  | zero => rfl
  | succ n ih =>
    simp only [Ex03.clicks, ih, bind, Except.bind, clickOnce03_Usage, decide_succ_mod_two]

/-! ### Nested containers -/

theorem render02_nest (k : Nat) (n r : Node) (h : Ex02.render n = .ok r) :
    Ex02.render (nest k n) = .ok (nest k r) := by
  induction k with
  | zero => exact h
  | succ k ih =>
    show Ex02.render (.element (.host "div") [] (nest k n)) = _
    rw [render02_host, ih]
    rfl

theorem render03_nest (ps : List Ex03.Published) (k : Nat) (n r : Node)
    (h : Ex03.render ps n = .ok r) :
    Ex03.render ps (nest k n) = .ok (nest k r) := by
  induction k with
  | zero => exact h
  | succ k ih =>
    show Ex03.render ps (.element (.host "div") [] (nest k n)) = _
    rw [render03_host, ih]
    rfl

theorem switches_nest (k : Nat) (n : Node) : (nest k n).switches = n.switches := by
  induction k with
  | zero => rfl
  | succ k ih =>
    show Node.switches (.element (.host "div") [] (nest k n)) = _
    rw [Node.switches, ih]

/-! ## The claims -/

/-- C6: in the explicit-injection variant, for every list of direct child
elements the output of the root has the same length and order as the input,
and its i-th element is the i-th child with the same type, the same children
and the same properties, except that `on` is the current state and `toggle` is
the mutator of this render, whatever the caller supplied under these names. -/
theorem explicit_injection_rewrites_each_child (self : Statics) (isOn : Bool)
    (cs : List Node) (onToggle : Val) (h : ∀ c ∈ cs, c.isElement = true) :
    ∃ out, (Ex02.Toggle self isOn { children := .arr cs, onToggle := onToggle }).2
        = .ok (.arr out) ∧
      out.length = cs.length ∧
      ∀ (i : Nat) (t : ElemType) (p : Props) (ch : Node), cs[i]? = some (.element t p ch) →
        ∃ p', out[i]? = some (.element t p' ch) ∧
          getProp p' "on" = .bool isOn ∧
          getProp p' "toggle" = .fn (.setOn (!isOn)) ∧
          ∀ name, name ≠ "on" → name ≠ "toggle" → getProp p' name = getProp p name := by
  obtain ⟨out, hout, hrel⟩ :=
    Toggle02_on_leaves self isOn cs onToggle (fun c hc => Or.inl (h c hc))
  refine ⟨out, hout, hrel.length_eq.symm, ?_⟩
  intro i t p ch hi
  obtain ⟨o, ho, hclone, _⟩ := forall₂_getElem? hrel i _ hi
  simp only [React.cloneElement, publishedValue_filter] at hclone
  injection hclone with hclone
  subst hclone
  refine ⟨_, ho, ?_, ?_, ?_⟩
  · simp [getProp_mergeProps, Ex02.publishedValue, List.lookup]
  · simp [getProp_mergeProps, Ex02.publishedValue, List.lookup]
  · intro name h1 h2
    have h1' : (name == "on") = false := by simpa using h1
    have h2' : (name == "toggle") = false := by simpa using h2
    simp [getProp_mergeProps, Ex02.publishedValue, List.lookup, h1', h2']

/-- Witness of C6 on the children of `Usage` in 02.js. -/
theorem explicit_injection_rewrites_each_child_witness :
    ∃ out, (Ex02.Toggle Statics.assigned true
        { children := .arr
            [ .element (.comp .On) [] (.text "The button is on"),
              .element (.comp .Button) [("on", .bool false)] .null ],
          onToggle := .undefined }).2 = .ok (.arr out) ∧
      out.length = 2 ∧
      ∀ (i : Nat) (t : ElemType) (p : Props) (ch : Node),
        [ Node.element (.comp .On) [] (.text "The button is on"),
          Node.element (.comp .Button) [("on", .bool false)] .null ][i]?
            = some (.element t p ch) →
        ∃ p', out[i]? = some (.element t p' ch) ∧
          getProp p' "on" = .bool true ∧
          getProp p' "toggle" = .fn (.setOn (!true)) ∧
          ∀ name, name ≠ "on" → name ≠ "toggle" → getProp p' name = getProp p name :=
  explicit_injection_rewrites_each_child Statics.assigned true _ .undefined
    (by intro c hc; simp at hc; rcases hc with rfl | rfl <;> rfl)

/-- C3: in both variants the root is a two-state machine that starts OFF: after
`n` toggles on a freshly created root, each mutator taken from the render that
follows the previous call, `on` is true exactly when `n` is odd. In 02.js the
mutator is the one injected into the direct children, so the root is given a
nonempty list of element children there. -/
theorem root_is_on_iff_odd_number_of_toggles (self : Statics) (n : Nat)
    (c : Node) (cs : List Node) (onToggle : Val) (props : ToggleProps)
    (h : ∀ d ∈ c :: cs, d.isElement = true) :
    World.initial.isOn = false ∧
    (∃ w, Ex02.toggles self { children := .arr (c :: cs), onToggle := onToggle } n
        World.initial = .ok w ∧ (w.isOn = true ↔ n % 2 = 1)) ∧
    ((Ex03.toggles self props n World.initial).isOn = true ↔ n % 2 = 1) := by
  refine ⟨rfl, ⟨_, toggles02 self c cs onToggle h n, ?_⟩, ?_⟩
  · simp
  · rw [toggles03]
    simp

/-- Witness of C3: three toggles on the children of `Usage`. -/
theorem root_is_on_iff_odd_number_of_toggles_witness :
    World.initial.isOn = false ∧
    (∃ w, Ex02.toggles Statics.assigned (Ex02.Usage Statics.assigned .undefined) 3
        World.initial = .ok w ∧ (w.isOn = true ↔ 3 % 2 = 1)) ∧
    ((Ex03.toggles Statics.assigned (Ex03.Usage Statics.assigned .undefined) 3
        World.initial).isOn = true ↔ 3 % 2 = 1) :=
  root_is_on_iff_odd_number_of_toggles Statics.assigned 3 _ _ .undefined
    (Ex03.Usage Statics.assigned .undefined)
    (by intro d hd; simp [ElemType.ofStatic, Statics.assigned] at hd
        rcases hd with rfl | rfl | rfl <;> rfl)

/-- C1 (evaluation of the code): in both variants the root never calls
`onToggle`. With `Usage` rendered with a caller-supplied `onToggle` and the leaf
control activated `n` times, a render pass before each activation, the state
alternates but the log of calls to `onToggle` stays empty; after one activation
it is not `[[true]]`. -/
theorem onToggle_is_never_called (id n : Nat) :
    (∃ w, Ex02.clicks Statics.assigned (Ex02.Usage Statics.assigned (.fn (.ext id))) n
        World.initial = .ok w ∧ (w.isOn = true ↔ n % 2 = 1) ∧ w.callsTo id = []) ∧
    (∃ w, Ex03.clicks Statics.assigned (Ex03.Usage Statics.assigned (.fn (.ext id))) n
        World.initial = .ok w ∧ (w.isOn = true ↔ n % 2 = 1) ∧ w.callsTo id = []) ∧
    (∃ w, Ex02.clicks Statics.assigned (Ex02.Usage Statics.assigned (.fn (.ext id))) 1
        World.initial = .ok w ∧ w.callsTo id ≠ [[.bool true]]) ∧
    (∃ w, Ex03.clicks Statics.assigned (Ex03.Usage Statics.assigned (.fn (.ext id))) 1
        World.initial = .ok w ∧ w.callsTo id ≠ [[.bool true]]) := by
  refine ⟨⟨_, clicks02_Usage _ n, by simp, rfl⟩, ⟨_, clicks03_Usage _ n, by simp, rfl⟩,
    ⟨_, clicks02_Usage _ 1, ?_⟩, ⟨_, clicks03_Usage _ 1, ?_⟩⟩
  · simp [World.callsTo]
  · simp [World.callsTo]


/-- C2 (evaluation of the code): the static properties are assigned in the body
of `Toggle`, so they exist only once a root has been called. Right after the
module is loaded `Toggle.On`, `Toggle.Off` and `Toggle.Button` are undefined,
the tree that `Usage` builds for the very first render has elements of
undefined type, and expanding that first render fails, in both variants. -/
theorem statics_are_undefined_on_first_render (onToggle : Val) (isOn : Bool)
    (props : ToggleProps) :
    Statics.moduleLoad.On = none ∧ Statics.moduleLoad.Off = none ∧
    Statics.moduleLoad.Button = none ∧
    (Ex02.Toggle Statics.moduleLoad isOn props).1 = Statics.assigned ∧
    (Ex03.Toggle Statics.moduleLoad isOn props).1 = Statics.assigned ∧
    (Ex02.Usage Statics.moduleLoad onToggle).children = .arr
      [ .element .undefined [] (.text "The button is on"),
        .element .undefined [] (.text "The button is off"),
        .element .undefined [] .null ] ∧
    (Ex03.Usage Statics.moduleLoad onToggle).children = .arr
      [ .element .undefined [] (.text "The button is on"),
        .element .undefined [] (.text "The button is off"),
        container (.element .undefined [] .null) ] ∧
    Ex02.renderRoot Statics.moduleLoad false (Ex02.Usage Statics.moduleLoad onToggle)
      = .error "Element type is invalid: got undefined" ∧
    Ex03.renderRoot Statics.moduleLoad false (Ex03.Usage Statics.moduleLoad onToggle)
      = .error "Element type is invalid: got undefined" := by
  refine ⟨rfl, rfl, rfl, rfl, rfl, rfl, rfl, ?_, ?_⟩
  · have hroot : (Ex02.Toggle Statics.moduleLoad false
          (Ex02.Usage Statics.moduleLoad onToggle)).2
        = .ok (.arr
          [ .element .undefined (Ex02.publishedValue false) (.text "The button is on"),
            .element .undefined (Ex02.publishedValue false) (.text "The button is off"),
            .element .undefined (Ex02.publishedValue false) .null ]) := rfl
    unfold Ex02.renderRoot
    rw [hroot, ok_bind, render02_arr, renderAll02_cons, render02_undefined]
    rfl
  · have hroot : (Ex03.Toggle Statics.moduleLoad false
          (Ex03.Usage Statics.moduleLoad onToggle)).2
        = { value := Ex03.publishedValue false,
            children := .arr
              [ .element .undefined [] (.text "The button is on"),
                .element .undefined [] (.text "The button is off"),
                .element (.host "div") [] (.element .undefined [] .null) ] } := rfl
    unfold Ex03.renderRoot Ex03.renderProvider
    rw [hroot, render03_arr, renderAll03_cons, render03_undefined]
    rfl

/-- C4: in both variants `On` yields its content when the published `on` is
true and nothing when it is false, and `Off` does the opposite, so for every
value of `on` exactly one of the two renders its content. In 02.js `on` is the
boolean found in the properties, in 03.js it is the `on` of the value resolved
by the consumer. -/
theorem On_and_Off_render_by_published_state (props p q : Props) (b : Bool) (c : Node)
    (v : Ex03.Published) (rest : List Ex03.Published)
    (h : getProp props "on" = .bool b) :
    Ex02.On props c = (if b then c else .null) ∧
    Ex02.Off props c = (if b then .null else c) ∧
    Ex03.ToggleContext.Consumer (v :: rest) (Ex03.On p c) = (if v.on_ then c else .null) ∧
    Ex03.ToggleContext.Consumer (v :: rest) (Ex03.Off q c) = (if v.on_ then .null else c) := by
  refine ⟨?_, ?_, rfl, rfl⟩
  · cases b <;> simp [Ex02.On, h, Val.truthy]
  · cases b <;> simp [Ex02.Off, h, Val.truthy]

/-- Witness of C4: the properties after the injection of a render with `on`
true. -/
theorem On_and_Off_render_by_published_state_witness :
    Ex02.On (Ex02.publishedValue true) (.text "The button is on")
      = (if true then .text "The button is on" else .null) ∧
    Ex02.Off (Ex02.publishedValue true) (.text "The button is on")
      = (if true then .null else .text "The button is on") ∧
    Ex03.ToggleContext.Consumer [Ex03.publishedValue true]
        (Ex03.On [] (.text "The button is on"))
      = (if (Ex03.publishedValue true).on_ then .text "The button is on" else .null) ∧
    Ex03.ToggleContext.Consumer [Ex03.publishedValue true]
        (Ex03.Off [] (.text "The button is on"))
      = (if (Ex03.publishedValue true).on_ then .null else .text "The button is on") :=
  On_and_Off_render_by_published_state (Ex02.publishedValue true) [] [] true
    (.text "The button is on") (Ex03.publishedValue true) [] rfl

/-- C5 (evaluation of the code): the `Button` of 02.js reads only `on` and
`toggle` and returns a leaf control with exactly the two properties `on` and
`onClick`, so an extra property of the caller, here `className`, is dropped;
the `Button` of 03.js spreads the properties of the caller and keeps it. -/
theorem Button02_drops_extra_properties :
    (∀ (props : Props) (children : Node), ∃ a b,
      Ex02.Button props children = .element .Switch [("on", a), ("onClick", b)] .null) ∧
    Ex02.Button
        [("on", .bool true), ("toggle", .fn (.setOn false)), ("className", .str "big")] .null
      = .element .Switch [("on", .bool true), ("onClick", .fn (.setOn false))] .null ∧
    getProp [("on", .bool true), ("onClick", .fn (.setOn false))] "className" = .undefined ∧
    Ex03.ToggleContext.Consumer [Ex03.publishedValue true]
        (Ex03.Button [("className", .str "big")] .null)
      = .element .Switch
          [("className", .str "big"), ("on", .bool true), ("onClick", .fn (.setOn false))]
          .null ∧
    getProp [("className", .str "big"), ("on", .bool true), ("onClick", .fn (.setOn false))]
        "className" = .str "big" := by
  refine ⟨fun props children => ⟨_, _, rfl⟩, rfl, rfl, rfl, rfl⟩

/-- C8: in the context-broadcast variant a consumer with no enclosing provider
resolves to the default of the context: `on` is false, so `On` renders nothing
and `Off` renders its content, `Button` binds the leaf control to `on = false`
and to the no-op, and calling the observed `toggle` any number of times raises
no error and leaves the world, hence the observed `on`, as it was. -/
theorem consumer_without_provider_observes_default (p : Props) (c : Node) (n : Nat)
    (w : World) :
    (Ex03.ToggleContext.read []).on_ = false ∧
    Ex03.ToggleContext.Consumer [] (Ex03.On p c) = .null ∧
    Ex03.ToggleContext.Consumer [] (Ex03.Off p c) = c ∧
    Ex03.ToggleContext.Consumer [] (Ex03.Button [] .null)
      = .element .Switch [("on", .bool false), ("onClick", .fn .noop)] .null ∧
    Val.call (.fn (Ex03.ToggleContext.read []).toggle) [] w = .ok w ∧
    ((Ex03.ToggleContext.read []).toggle.invoke [])^[n] w = w ∧
    click (Ex03.ToggleContext.Consumer [] (Ex03.Button [] .null)) w = .ok w := by
  refine ⟨rfl, rfl, rfl, rfl, rfl, ?_, rfl⟩
  induction n with
  | zero => rfl
  | succ n ih => rw [Function.iterate_succ_apply']; rw [ih]; rfl


/-- C10: in both variants the mutator published by a render in which the state
is `s` sets the state to `!s` whatever the state is when it is called, so
calling that same mutator twice with no render in between leaves the state at
`!s`: it is idempotent and, started from the state `s` of its render, it does
not return to `s`. Mutators taken from successive renders alternate the state:
two toggles with a render in between restore the world. -/
theorem published_mutator_sets_negated_snapshot (self : Statics) (s : Bool) (c : Node)
    (cs : List Node) (onToggle : Val) (props : ToggleProps) (w : World)
    (h : ∀ d ∈ c :: cs, d.isElement = true) :
    (Ex02.publishedToggle
        (Ex02.Toggle self s { children := .arr (c :: cs), onToggle := onToggle }).2).call [] w
      = .ok { w with isOn := !s } ∧
    (Ex02.publishedToggle
        (Ex02.Toggle self s { children := .arr (c :: cs), onToggle := onToggle }).2).call []
        { w with isOn := !s }
      = .ok { w with isOn := !s } ∧
    (Ex03.Toggle self s props).2.value.toggle.invoke [] w = { w with isOn := !s } ∧
    (Ex03.Toggle self s props).2.value.toggle.invoke []
        ((Ex03.Toggle self s props).2.value.toggle.invoke [] w)
      = (Ex03.Toggle self s props).2.value.toggle.invoke [] w ∧
    ((Ex03.Toggle self s props).2.value.toggle.invoke []
        ((Ex03.Toggle self s props).2.value.toggle.invoke [] { w with isOn := s })).isOn ≠ s ∧
    (Ex02.toggleOnce self { children := .arr (c :: cs), onToggle := onToggle } w
        >>= Ex02.toggleOnce self { children := .arr (c :: cs), onToggle := onToggle })
      = .ok w ∧
    Ex03.toggleOnce self props (Ex03.toggleOnce self props w) = w := by
  rw [publishedToggle_Toggle02 self s c cs onToggle h, toggleOnce02 self c cs onToggle h,
    ok_bind, toggleOnce02 self c cs onToggle h]
  obtain ⟨b, calls⟩ := w
  refine ⟨rfl, rfl, rfl, rfl, ?_, ?_, ?_⟩
  · cases s <;> simp [Ex03.Toggle, Ex03.publishedValue, Fn.invoke]
  · cases b <;> rfl
  · cases b <;> rfl

/-- Witness of C10 on the children of `Usage`, for a render with `on` false
and a world that is already on. -/
theorem published_mutator_sets_negated_snapshot_witness :
    (Ex02.publishedToggle
        (Ex02.Toggle Statics.assigned false
          (Ex02.Usage Statics.assigned .undefined)).2).call []
        { isOn := true, calls := [] }
      = .ok { isOn := true, calls := [] } :=
  (published_mutator_sets_negated_snapshot Statics.assigned false _ _ .undefined
    (Ex03.Usage Statics.assigned .undefined) { isOn := true, calls := [] }
    (by intro d hd; simp [ElemType.ofStatic, Statics.assigned] at hd
        rcases hd with rfl | rfl | rfl <;> rfl)).1


/-- C7: for every depth `k ≥ 1` of plain containers between the root and a
`Button` whose caller supplied none of `on`, `onClick` and `toggle`: in the
context-broadcast variant the leaf control of that `Button` receives `on` equal
to the state of the root and an `onClick` whose call flips that state, whereas
in the explicit-injection variant only the outermost container is rewritten and
the leaf control of the nested `Button` receives `undefined` for both, so that
activating it fails. -/
theorem nested_button_is_reached_by_context_only (self : Statics) (isOn : Bool) (k : Nat)
    (p : Props) (ch : Node) (onToggle : Val) (w : World)
    (hk : 1 ≤ k) (hon : p.lookup "on" = none) (hclick : p.lookup "onClick" = none)
    (htoggle : p.lookup "toggle" = none) (hw : w.isOn = isOn) :
    (∃ sw, Ex03.renderRoot self isOn
          { children := nest k (.element (.comp .Button) p ch), onToggle := onToggle }
        = .ok (nest k (.element .Switch sw ch)) ∧
      getProp sw "on" = .bool isOn ∧
      (getProp sw "onClick").call [] w = .ok { w with isOn := !w.isOn } ∧
      click (nest k (.element .Switch sw ch)) w = .ok { w with isOn := !w.isOn }) ∧
    Ex02.renderRoot self isOn
        { children := nest k (.element (.comp .Button) p ch), onToggle := onToggle }
      = .ok (.arr
          [ .element (.host "div") (mergeProps [] (Ex02.publishedValue isOn))
              (nest (k - 1)
                (.element .Switch [("on", .undefined), ("onClick", .undefined)] .null)) ]) ∧
    click (.arr
          [ .element (.host "div") (mergeProps [] (Ex02.publishedValue isOn))
              (nest (k - 1)
                (.element .Switch [("on", .undefined), ("onClick", .undefined)] .null)) ]) w
      = .error "TypeError: not a function" := by
  have hsw : getProp (mergeProps [("on", .bool isOn), ("onClick", .fn (.setOn (!isOn)))] p)
      "on" = .bool isOn := by
    rw [getProp_mergeProps, hon]
    rfl
  have hcl : getProp (mergeProps [("on", .bool isOn), ("onClick", .fn (.setOn (!isOn)))] p)
      "onClick" = .fn (.setOn (!isOn)) := by
    rw [getProp_mergeProps, hclick]
    rfl
  refine ⟨⟨mergeProps [("on", .bool isOn), ("onClick", .fn (.setOn (!isOn)))] p,
    ?_, hsw, ?_, ?_⟩, ?_, ?_⟩
  · unfold Ex03.renderRoot Ex03.renderProvider
    exact render03_nest _ k _ _ (render03_Button _ p ch)
  · rw [hcl, ← hw]
    rfl
  · unfold click
    rw [switches_nest, Node.switches]
    show (getProp _ "onClick").call [] w = _
    rw [hcl, ← hw]
    rfl
  · obtain ⟨j, rfl⟩ : ∃ j, k = j + 1 := ⟨k - 1, by omega⟩
    have hroot : (Ex02.Toggle self isOn
          { children := nest (j + 1) (.element (.comp .Button) p ch),
            onToggle := onToggle }).2
        = .ok (.arr
            [ .element (.host "div") (mergeProps [] (Ex02.publishedValue isOn))
                (nest j (.element (.comp .Button) p ch)) ]) := by
      simp only [nest, container, Ex02.Toggle, React.Children.map,
        React.Children.mapIntoArray, React.cloneElement, publishedValue_filter]
      rfl
    have hbtn : Ex02.render (.element (.comp .Button) p ch)
        = .ok (.element .Switch [("on", .undefined), ("onClick", .undefined)] .null) := by
      rw [render02_Button]
      simp only [Ex02.Button, getProp, hon, htoggle]
      rfl
    unfold Ex02.renderRoot
    rw [hroot, ok_bind, render02_arr, renderAll02_cons, render02_host,
      render02_nest j _ _ hbtn, renderAll02_nil]
    rfl
  · unfold click
    rw [Node.switches, Node.switchesAll, Node.switches, switches_nest, Node.switches]
    rfl

/-- Witness of C7: the `Button` of `Usage` two containers deep, root off. -/
theorem nested_button_is_reached_by_context_only_witness :
    Ex02.renderRoot Statics.assigned false
        { children := nest 2 (.element (.comp .Button) [] .null), onToggle := .undefined }
      = .ok (.arr
          [ .element (.host "div") (mergeProps [] (Ex02.publishedValue false))
              (nest (2 - 1)
                (.element .Switch [("on", .undefined), ("onClick", .undefined)] .null)) ]) :=
  (nested_button_is_reached_by_context_only Statics.assigned false 2 [] .null .undefined
    World.initial (by decide) rfl rfl rfl rfl).2.1

/-- C9 as stated fails: with the single text child `hello` the output of the
root does not hold that text at position 0. -/
theorem text_child_is_not_passed_through :
    ¬ ∀ (self : Statics) (isOn : Bool) (cs : List Node) (onToggle : Val) (i : Nat) (c : Node),
        cs[i]? = some c → c.isElement = false →
        ∃ out, (Ex02.Toggle self isOn { children := .arr cs, onToggle := onToggle }).2
            = .ok (.arr out) ∧ out[i]? = some c := by
  intro hall
  obtain ⟨out, hout, hi⟩ :=
    hall Statics.assigned false [.text "hello"] .undefined 0 (.text "hello") rfl rfl
  have hval : (Ex02.Toggle Statics.assigned false
        { children := .arr [.text "hello"], onToggle := .undefined }).2
      = .ok (.arr [.element .undefined (Ex02.publishedValue false) .null]) := rfl
  rw [hval] at hout
  injection hout with hout
  injection hout with hout
  subst hout
  simp at hi

/-- C9, amended: in the explicit-injection variant the root hands every child,
element or not, to `cloneElement`. On a list of element and text children the
output has the same length and order, and a text child is not passed through:
at its position the output holds an element of undefined type whose properties
are the injected `on` and `toggle`. -/
theorem text_child_is_cloned_like_an_element (self : Statics) (isOn : Bool)
    (cs : List Node) (onToggle : Val)
    (h : ∀ c ∈ cs, c.isElement = true ∨ c.isText = true) :
    ∃ out, (Ex02.Toggle self isOn { children := .arr cs, onToggle := onToggle }).2
        = .ok (.arr out) ∧
      out.length = cs.length ∧
      ∀ (i : Nat) (s : String), cs[i]? = some (.text s) →
        out[i]? = some (.element .undefined (Ex02.publishedValue isOn) .null) := by
  obtain ⟨out, hout, hrel⟩ := Toggle02_on_leaves self isOn cs onToggle h
  refine ⟨out, hout, hrel.length_eq.symm, ?_⟩
  intro i s hi
  obtain ⟨o, ho, hclone, _⟩ := forall₂_getElem? hrel i _ hi
  simp only [React.cloneElement, publishedValue_filter] at hclone
  injection hclone with hclone
  rw [ho, ← hclone]

/-- Witness of the amended C9 on a text child followed by a `Button`. -/
theorem text_child_is_cloned_like_an_element_witness :
    ∃ out, (Ex02.Toggle Statics.assigned false
        { children := .arr [.text "hello", .element (.comp .Button) [] .null],
          onToggle := .undefined }).2 = .ok (.arr out) ∧
      out.length = 2 ∧
      ∀ (i : Nat) (s : String),
        [Node.text "hello", Node.element (.comp .Button) [] .null][i]? = some (.text s) →
        out[i]? = some (.element .undefined (Ex02.publishedValue false) .null) :=
  text_child_is_cloned_like_an_element Statics.assigned false _ .undefined
    (by intro c hc; simp at hc; rcases hc with rfl | rfl
        · exact Or.inr rfl
        · exact Or.inl rfl)


end Compound
